import Mathlib

/-!
Shallow embedding of `src/text-summarizer.py`, a command-line text summarizer.

The program is a linear pipeline: parse CLI arguments (argparse), check the
`OPENAI_API_KEY` environment variable, resolve the input text (`read_input`),
build an instruction prompt (`build_prompt`), issue one chat-completion
request (`summarize`), and print the result or an error (`main`).

External effects (environment variables, the file system, stdin, and the
remote OpenAI client) are modelled as an explicit `Env` oracle record, and
each function additionally returns the stdout lines it prints and the
requests it issues, so that the observable behaviour of a run is a pure
value.  Python exceptions are modelled as `Except PyExc`, where a `PyExc`
carries the Python exception class (`PyExcKind`) and its message.
-/

/-- Python exception classes relevant to this program.
`OSError` is Python's `IOError` (since Python 3.3, `IOError` is an alias of
`OSError`, and open-failures such as `FileNotFoundError` are its subclasses).
`UnicodeDecodeError` is a subclass of `ValueError`, not of `OSError`.
`IndexError` is raised by `resp.choices[0]` on an empty list.  `ExcOther`
stands for any other `Exception` subclass raised by the remote client
(transport, auth, rate-limit, ...). -/
inductive PyExcKind where
  | osError
  | unicodeDecodeError
  | indexError
  | excOther
  deriving DecidableEq, Repr

/-- True exactly for the Python exception classes that are (subclasses of)
`IOError = OSError`.  `UnicodeDecodeError` is a `ValueError`, hence `false`. -/
def PyExcKind.isIOErrorKind : PyExcKind → Bool
  | .osError => true
  | _ => false

/-- A Python exception: its class and the message `str(e)`. -/
structure PyExc where
  kind : PyExcKind
  msg : String
  deriving DecidableEq, Repr

/-- Outcome of `open(path, "r", encoding="utf-8")` followed by `.read()`,
as reported by the file-system oracle: the open can fail (`OSError`),
the raw bytes can fail to decode as UTF-8 (`UnicodeDecodeError`), or the
full decoded contents are returned. -/
inductive FileReadResult where
  | failOpen (msg : String)
  | failDecode (msg : String)
  | content (s : String)
  deriving DecidableEq, Repr

/-- One role-tagged chat message, `{"role": ..., "content": ...}`. -/
structure ChatMessage where
  role : String
  content : String
  deriving DecidableEq, Repr

/-- A chat-completion request as assembled by `summarize`
(`client.chat.completions.create(model=..., messages=..., temperature=...)`). -/
structure ChatRequest where
  model : String
  messages : List ChatMessage
  temperature : ℚ
  deriving DecidableEq, Repr

/-- `resp.choices[i].message` of a completion response. -/
structure Choice where
  message : ChatMessage
  deriving DecidableEq, Repr

/-- A chat-completion response: the ordered list of candidate choices. -/
structure ChatResponse where
  choices : List Choice
  deriving DecidableEq, Repr

/-- The external world: environment variable, file system, stdin contents,
and the remote completion endpoint. -/
structure Env where
  apiKey : Option String
  files : String → FileReadResult
  stdinData : String
  create : ChatRequest → Except PyExc ChatResponse

/-- The parsed argparse namespace (`args`), with the defaults of
`main`'s parser: `--text`/`--file` default `None`, `--stdin` default
`False`, `--model` default `"gpt-4.1-mini"`, `--style` default
`"paragraph"`, `--max-words` default `150`. -/
structure Args where
  text : Option String := none
  file : Option String := none
  stdin : Bool := false
  model : String := "gpt-4.1-mini"
  style : String := "paragraph"
  max_words : Int := 150
  deriving DecidableEq, Repr

/-- Python truthiness of an `Optional[str]`: `None` and `""` are falsy
(this is what `if args.text:` and `if args.file:` test). -/
def truthyOpt : Option String → Bool
  | none => false
  | some s => !s.isEmpty

/-- The interactive prompt printed by `read_input` when no explicit input
source was selected. -/
def interactivePrompt : String :=
  "Paste text to summarize, then end input (Ctrl+D on mac/linux, Ctrl+Z then Enter on windows):"

/-- `open(path, "r", encoding="utf-8").read()`: maps the file-system
oracle's outcome to Python's exception classes. -/
def readFileUtf8 (env : Env) (path : String) : Except PyExc String :=
  match env.files path with
  | .failOpen m => .error ⟨.osError, m⟩
  | .failDecode m => .error ⟨.unicodeDecodeError, m⟩
  | .content s => .ok s

/-- `read_input(args)` (src/text-summarizer.py lines 19-31).  Returns the
resolved text together with the list of lines printed to stdout (the
interactive prompt, in the fallback case).  The file read can raise. -/
def read_input (env : Env) (args : Args) : Except PyExc (String × List String) :=
  if truthyOpt args.text then
    .ok (args.text.getD "", [])
  else if truthyOpt args.file then
    match readFileUtf8 env (args.file.getD "") with
    | .error e => .error e
    | .ok s => .ok (s, [])
  else if args.stdin then
    .ok (env.stdinData, [])
  else
    .ok (env.stdinData, [interactivePrompt])

/-- `build_prompt(style, max_words)` (src/text-summarizer.py lines 34-47). -/
def build_prompt (style : String) (max_words : Int) : String :=
  let style_instr :=
    if style = "bullets" then
      "Return a bullet-point summary (5–10 bullets)."
    else if style = "tl;dr" then
      "Return a TL;DR (1–2 sentences), then a short paragraph summary."
    else
      "Return a concise paragraph summary."
  style_instr ++ "\n" ++
    "Keep it under about " ++ toString max_words ++ " words.\n" ++
    "Preserve key facts, numbers, names, and causal relationships.\n" ++
    "If the text is unclear or missing info, say so briefly.\n"

/-- `needle` occurs as a contiguous substring of `hay`. -/
def strContains (hay needle : String) : Prop :=
  ∃ a b : String, hay = a ++ needle ++ b

theorem string_append_assoc (a b c : String) : a ++ b ++ c = a ++ (b ++ c) := by
  cases a with | mk da => cases b with | mk db => cases c with | mk dc =>
  exact congrArg String.mk (List.append_assoc da db dc)

/-- The fixed system-role message of `summarize`. -/
def system_msg : String :=
  "You are a helpful assistant that summarizes text accurately and concisely."

/-- The single chat-completion request assembled by `summarize` from its
arguments (src/text-summarizer.py lines 60-67). -/
def summarizeRequest (text model style : String) (max_words : Int) : ChatRequest :=
  { model := model
    messages :=
      [ { role := "system", content := system_msg }
      , { role := "user"
        , content := build_prompt style max_words ++ "\n\nTEXT:\n" ++ text } ]
    temperature := 0.2 }

/-- Python `s.strip()` with no argument: remove leading and trailing
whitespace characters.  (Python's whitespace set also has some rarer
code points such as `\v`, `\f` and Unicode spaces; the claims only
exercise spaces, tabs and newlines, which `Char.isWhitespace` covers.) -/
def pyStrip (s : String) : String :=
  ⟨((s.data.dropWhile Char.isWhitespace).reverse.dropWhile Char.isWhitespace).reverse⟩

/-- `summarize(client, text, model, style, max_words)`
(src/text-summarizer.py lines 50-68).  Returns the result together with
the list of requests issued to the remote endpoint (the source issues
exactly one `client.chat.completions.create` call).  `resp.choices[0]`
raises `IndexError` when the response has no choices; `.strip()` is
modelled by `pyStrip`. -/
def summarize (create : ChatRequest → Except PyExc ChatResponse)
    (text model style : String) (max_words : Int) :
    Except PyExc String × List ChatRequest :=
  let req := summarizeRequest text model style max_words
  let res :=
    match create req with
    | .error e => .error e
    | .ok resp =>
      match resp.choices with
      | [] => .error ⟨.indexError, "list index out of range"⟩
      | c :: _ => .ok (pyStrip c.message.content)
  (res, [req])

/-- Python `int(s)` on a decimal string: an optional sign followed by at
least one ASCII digit (surrounding whitespace and digit-group underscores,
which Python also accepts, are not modelled).  Returns `none` when `int(s)`
would raise `ValueError`. -/
def pyInt (s : String) : Option Int :=
  let digitsVal : List Char → Option Nat := fun ds =>
    if ds = [] then none
    else if ds.all Char.isDigit then
      some (ds.foldl (fun acc c => acc * 10 + (c.toNat - 48)) 0)
    else none
  match s.data with
  | '-' :: ds => (digitsVal ds).map (fun n => -(n : Int))
  | '+' :: ds => (digitsVal ds).map (fun n => (n : Int))
  | ds => (digitsVal ds).map (fun n => (n : Int))

/-- Intermediate state of the argparse model: the namespace being built
plus, for each action of the mutually exclusive group, whether it has been
seen on the command line (argparse's `seen_non_default_actions`). -/
structure ParseState where
  args : Args := {}
  seenText : Bool := false
  seenFile : Bool := false
  seenStdin : Bool := false
  deriving DecidableEq, Repr

/-- Argument-consuming loop of `parser.parse_args(argv)` for the parser
configured in `main` (src/text-summarizer.py lines 72-80): options
`--text`/`--file`/`--stdin` form a mutually exclusive group (argparse
errors as soon as one of them appears while another one has already been
seen), `--style` is validated against its `choices` list, `--max-words`
is converted with `type=int`, and any other token is rejected
(`unrecognized arguments`).  Each value option takes the next token as its
value.  Not modelled: `--opt=value` syntax, prefix abbreviation, and
argparse's re-classification of value tokens that look like options; none
of the claims depend on these.  On error argparse prints the message and
exits the process with status 2. -/
def parseLoop : List String → ParseState → Except String ParseState
  | [], st => .ok st
  | tok :: rest, st =>
    if tok = "--text" then
      match rest with
      | [] => .error "argument --text: expected one argument"
      | v :: rest2 =>
        if st.seenFile then .error "argument --text: not allowed with argument --file"
        else if st.seenStdin then .error "argument --text: not allowed with argument --stdin"
        else parseLoop rest2 { st with args := { st.args with text := some v }, seenText := true }
    else if tok = "--file" then
      match rest with
      | [] => .error "argument --file: expected one argument"
      | v :: rest2 =>
        if st.seenText then .error "argument --file: not allowed with argument --text"
        else if st.seenStdin then .error "argument --file: not allowed with argument --stdin"
        else parseLoop rest2 { st with args := { st.args with file := some v }, seenFile := true }
    else if tok = "--stdin" then
      if st.seenText then .error "argument --stdin: not allowed with argument --text"
      else if st.seenFile then .error "argument --stdin: not allowed with argument --file"
      else parseLoop rest { st with args := { st.args with stdin := true }, seenStdin := true }
    else if tok = "--model" then
      match rest with
      | [] => .error "argument --model: expected one argument"
      | v :: rest2 => parseLoop rest2 { st with args := { st.args with model := v } }
    else if tok = "--style" then
      match rest with
      | [] => .error "argument --style: expected one argument"
      | v :: rest2 =>
        if v = "paragraph" ∨ v = "bullets" ∨ v = "tl;dr" then
          parseLoop rest2 { st with args := { st.args with style := v } }
        else .error "argument --style: invalid choice"
    else if tok = "--max-words" then
      match rest with
      | [] => .error "argument --max-words: expected one argument"
      | v :: rest2 =>
        match pyInt v with
        | none => .error "argument --max-words: invalid int value"
        | some n => parseLoop rest2 { st with args := { st.args with max_words := n } }
    else .error ("unrecognized arguments: " ++ tok)

/-- `parser.parse_args(argv)`: run the loop from the all-defaults state. -/
def parse_args (argv : List String) : Except String Args :=
  (parseLoop argv {}).map ParseState.args

/-- How many of the three explicit input sources are set in a parsed
namespace (`--text`/`--file` non-`None`, `--stdin` `True`). -/
def sourceCount (args : Args) : Nat :=
  (if args.text.isSome then 1 else 0) +
  (if args.file.isSome then 1 else 0) +
  (if args.stdin then 1 else 0)

/-- Observable outcome of one full run of `main`: the process exit code,
the lines printed to stdout and stderr, the completion requests issued,
and whether the `OpenAI(api_key=...)` client object was constructed
(src/text-summarizer.py line 92). -/
structure RunOutcome where
  exitCode : Int
  stdout : List String
  stderr : List String
  requests : List ChatRequest
  clientConstructed : Bool
  deriving DecidableEq, Repr

/-- `main(argv)` (src/text-summarizer.py lines 71-101).  `Except.error`
is the case where an exception escapes `main` (a file-read failure in
`read_input` is not caught by the `try` around `summarize`).  An argparse
failure exits the process with status 2 after printing the usage error to
stderr.  `if not api_key:` is Python truthiness, so an unset and an empty
`OPENAI_API_KEY` behave alike.  Only the exception raised by `summarize`
is caught; it is reported as `"ERROR: <message>"` with exit code 1. -/
def pymain (env : Env) (argv : List String) : Except PyExc RunOutcome :=
  match parse_args argv with
  | .error emsg => .ok ⟨2, [], [emsg], [], false⟩
  | .ok args =>
    if truthyOpt env.apiKey = false then
      .ok ⟨2, [], ["ERROR: OPENAI_API_KEY is not set in your environment."], [], false⟩
    else
      match read_input env args with
      | .error e => .error e
      | .ok (raw, outLines) =>
        let text := pyStrip raw
        if text.isEmpty then
          .ok ⟨2, outLines, ["ERROR: No input text provided."], [], false⟩
        else
          let res := summarize env.create text args.model args.style args.max_words
          match res.1 with
          | .error e => .ok ⟨1, outLines, ["ERROR: " ++ e.msg], res.2, true⟩
          | .ok summary => .ok ⟨0, outLines ++ [summary], [], res.2, true⟩

theorem string_empty_append (s : String) : "" ++ s = s := by
  cases s with | mk d => rfl

theorem string_append_empty (s : String) : s ++ "" = s := by
  cases s with | mk d => exact congrArg String.mk (List.append_nil d)

theorem strContains_appendr {x n : String} (h : strContains x n) (y : String) :
    strContains (x ++ y) n := by
  obtain ⟨a, b, rfl⟩ := h
  exact ⟨a, b ++ y, string_append_assoc (a ++ n) b y⟩

theorem strContains_appendl (y : String) {x n : String} (h : strContains x n) :
    strContains (y ++ x) n := by
  obtain ⟨a, b, rfl⟩ := h
  refine ⟨y ++ a, b, ?_⟩
  simp only [string_append_assoc]

/-- Right-associated decomposition of `build_prompt`, with the
`" words.\n"` piece isolated next to the rendered word count. -/
theorem build_prompt_decomp (style : String) (max_words : Int) :
    build_prompt style max_words =
      (if style = "bullets" then "Return a bullet-point summary (5–10 bullets)."
       else if style = "tl;dr" then "Return a TL;DR (1–2 sentences), then a short paragraph summary."
       else "Return a concise paragraph summary.") ++
        ("\n" ++ ("Keep it under about " ++ (toString max_words ++ (" words.\n" ++
          ("Preserve key facts, numbers, names, and causal relationships.\n" ++
           "If the text is unclear or missing info, say so briefly.\n"))))) := by
  simp only [build_prompt]
  simp only [string_append_assoc]

/-- C2: `build_prompt` is a pure deterministic function of
`(style, max_words)` (it is a Lean function of exactly these arguments):
its output always contains the substring `"<max_words> words"`; for style
`"bullets"` it mentions the 5–10 bullet summary; for style `"tl;dr"` it
mentions a TL;DR; and for any other style (including the default
`"paragraph"`) it falls back to the concise-paragraph instruction, i.e.
produces exactly the `"paragraph"` output. -/
theorem build_prompt_contract (style : String) (max_words : Int) :
    strContains (build_prompt style max_words) (toString max_words ++ " words") ∧
    strContains (build_prompt "bullets" max_words) "bullet-point summary (5–10 bullets)" ∧
    strContains (build_prompt "tl;dr" max_words) "TL;DR" ∧
    (style ≠ "bullets" → style ≠ "tl;dr" →
      build_prompt style max_words = build_prompt "paragraph" max_words) := by
  refine ⟨?_, ?_, ?_, ?_⟩
  · rw [build_prompt_decomp]
    have h1 : strContains (toString max_words ++ " words.\n")
        (toString max_words ++ " words") := by
      refine ⟨"", ".\n", ?_⟩
      rw [string_empty_append, string_append_assoc]
      exact congrArg (fun z => toString max_words ++ z) (by decide)
    have h2 := strContains_appendr h1
      ("Preserve key facts, numbers, names, and causal relationships.\n" ++
        "If the text is unclear or missing info, say so briefly.\n")
    rw [string_append_assoc] at h2
    exact strContains_appendl _ (strContains_appendl _ (strContains_appendl _ h2))
  · rw [build_prompt_decomp]
    rw [if_pos rfl]
    exact strContains_appendr ⟨"Return a ", ".", by decide⟩ _
  · rw [build_prompt_decomp]
    rw [if_neg (by decide : ¬("tl;dr" = "bullets")), if_pos rfl]
    exact strContains_appendr
      ⟨"Return a ", " (1–2 sentences), then a short paragraph summary.", by decide⟩ _
  · intro h1 h2
    simp only [build_prompt]
    rw [if_neg h1, if_neg h2, if_neg (by decide : ¬("paragraph" = "bullets")),
      if_neg (by decide : ¬("paragraph" = "tl;dr"))]

/-- Witness for `build_prompt_contract` at a concrete input: the style
`"unknown"` falls back to the `"paragraph"` output, and the prompt for
`max_words = 100` contains `"100 words"`. -/
theorem build_prompt_contract_witness :
    build_prompt "unknown" 100 = build_prompt "paragraph" 100 ∧
    strContains (build_prompt "unknown" 100) (toString (100 : Int) ++ " words") :=
  ⟨(build_prompt_contract "unknown" 100).2.2.2 (by decide) (by decide),
   (build_prompt_contract "unknown" 100).1⟩

instance {ε α : Type} [DecidableEq ε] [DecidableEq α] : DecidableEq (Except ε α) := fun x y =>
  match x, y with
  | .error a, .error b =>
    if h : a = b then .isTrue (by rw [h]) else .isFalse (fun c => h (Except.error.inj c))
  | .ok a, .ok b =>
    if h : a = b then .isTrue (by rw [h]) else .isFalse (fun c => h (Except.ok.inj c))
  | .error _, .ok _ => .isFalse Except.noConfusion
  | .ok _, .error _ => .isFalse Except.noConfusion

/-- A concrete world used by witnesses: the key is set, every file reads as
`"file contents"`, stdin holds `"stdin text"`, and the endpoint always
answers with one choice whose content is `" X "`. -/
def envA : Env :=
  { apiKey := some "k"
    files := fun _ => .content "file contents"
    stdinData := "stdin text"
    create := fun _ => .ok ⟨[⟨⟨"assistant", " X "⟩⟩]⟩ }

/-- C1 counterexample: with `--text ""` (an empty literal text argument is
still a supplied one) and `--stdin` unset but stdin holding `"from stdin"`,
`read_input` does not return the empty literal unchanged: `if args.text:`
is false for `""`, so resolution falls through (here to the interactive
prompt) and the stdin contents are returned instead. -/
theorem read_input_empty_literal_cex :
    ({ text := some "", stdin := true } : Args).text = some "" ∧
    read_input { envA with stdinData := "from stdin" } { text := some "", stdin := true } =
      .ok ("from stdin", []) ∧
    read_input { envA with stdinData := "from stdin" } { text := some "", stdin := true } ≠
      .ok ("", []) := by
  refine ⟨rfl, rfl, ?_⟩
  decide

/-- C1 (amended): `read_input` resolves the input text by strict
first-match precedence, where an option counts as supplied only when it is
non-empty (Python truthiness): a non-empty literal text argument is
returned unchanged; else a non-empty file path is read and its full
contents returned; else if the stdin flag is set, stdin is read to
end-of-stream; else the interactive prompt is printed and stdin is read to
end-of-stream. -/
theorem read_input_precedence (env : Env) (args : Args) :
    (truthyOpt args.text = true → read_input env args = .ok (args.text.getD "", [])) ∧
    (truthyOpt args.text = false → truthyOpt args.file = true →
      read_input env args = (readFileUtf8 env (args.file.getD "")).map (fun s => (s, []))) ∧
    (truthyOpt args.text = false → truthyOpt args.file = false → args.stdin = true →
      read_input env args = .ok (env.stdinData, [])) ∧
    (truthyOpt args.text = false → truthyOpt args.file = false → args.stdin = false →
      read_input env args = .ok (env.stdinData, [interactivePrompt])) := by
  refine ⟨?_, ?_, ?_, ?_⟩
  · intro h1
    simp [read_input, h1]
  · intro h1 h2
    simp only [read_input, h1, h2, Bool.false_eq_true, if_false, if_true]
    cases readFileUtf8 env (args.file.getD "") with
    | error e => rfl
    | ok s => rfl
  · intro h1 h2 h3
    simp [read_input, h1, h2, h3]
  · intro h1 h2 h3
    simp [read_input, h1, h2, h3]

/-- Witness for `read_input_precedence`: a non-empty literal is returned
unchanged, and with no source selected the prompt is printed and stdin is
returned. -/
theorem read_input_precedence_witness :
    read_input envA { text := some "hello world" } = .ok ("hello world", []) ∧
    read_input envA {} = .ok ("stdin text", [interactivePrompt]) :=
  ⟨(read_input_precedence envA { text := some "hello world" }).1 rfl,
   (read_input_precedence envA {}).2.2.2 rfl rfl rfl⟩

/-- C10: an empty literal text argument behaves exactly as an absent one:
`read_input` produces the same outcome as with `text = None`, falling
through to the file, stdin, or interactive-prompt sources in order. -/
theorem read_input_empty_text_as_absent (env : Env) (args : Args)
    (h : args.text = some "") :
    read_input env args = read_input env { args with text := none } := by
  simp [read_input, h, truthyOpt]
  intro hc
  exact absurd hc (by decide)

/-- Witness for `read_input_empty_text_as_absent` at a concrete input. -/
theorem read_input_empty_text_as_absent_witness :
    read_input envA { text := some "", file := some "notes.txt" } =
      read_input envA { text := none, file := some "notes.txt" } :=
  read_input_empty_text_as_absent envA { text := some "", file := some "notes.txt" } rfl

/-- C3: for every input text, model, style, and max_words, `summarize`
issues exactly one completion request, consisting of the fixed system-role
message and a user-role message equal to the built prompt, a blank line,
the marker `TEXT:`, a newline, then the raw input text, with temperature
0.2 and the configured model; when the endpoint answers, the
whitespace-trimmed content of the first returned choice's message is
returned. -/
theorem summarize_contract (create : ChatRequest → Except PyExc ChatResponse)
    (text model style : String) (max_words : Int) :
    (summarize create text model style max_words).2 =
      [summarizeRequest text model style max_words] ∧
    (summarizeRequest text model style max_words).messages =
      [⟨"system", "You are a helpful assistant that summarizes text accurately and concisely."⟩,
       ⟨"user", build_prompt style max_words ++ "\n\nTEXT:\n" ++ text⟩] ∧
    (summarizeRequest text model style max_words).temperature = 0.2 ∧
    (summarizeRequest text model style max_words).model = model ∧
    (∀ resp c rest, create (summarizeRequest text model style max_words) = .ok resp →
      resp.choices = c :: rest →
      (summarize create text model style max_words).1 = .ok (pyStrip c.message.content)) := by
  refine ⟨rfl, rfl, rfl, rfl, ?_⟩
  intro resp c rest h1 h2
  simp [summarize, h1, h2]

/-- Witness for `summarize_contract`: a stubbed endpoint answering with
one choice whose content is `" X "` yields the trimmed summary `"X"`. -/
theorem summarize_contract_witness :
    (summarize envA.create "some input" "gpt-4.1-mini" "paragraph" 150).1 = .ok "X" := by
  have h := (summarize_contract envA.create "some input" "gpt-4.1-mini" "paragraph" 150).2.2.2.2
    ⟨[⟨⟨"assistant", " X "⟩⟩]⟩ ⟨⟨"assistant", " X "⟩⟩ [] rfl rfl
  rw [h]
  decide

/-- C5: if the `OPENAI_API_KEY` environment variable is unset or empty,
`main` prints an error naming the credential to stderr and returns exit
code 2, with no remote client constructed and no request issued. -/
theorem pymain_missing_key (env : Env) (argv : List String) (args : Args)
    (h1 : parse_args argv = .ok args)
    (h2 : env.apiKey = none ∨ env.apiKey = some "") :
    pymain env argv =
      .ok ⟨2, [], ["ERROR: OPENAI_API_KEY is not set in your environment."], [], false⟩ := by
  have h2f : truthyOpt env.apiKey = false := by
    cases h2 with
    | inl h => rw [h]; rfl
    | inr h => rw [h]; rfl
  simp [pymain, h1, h2f]

/-- Witness for `pymain_missing_key`: an unset key with no arguments. -/
theorem pymain_missing_key_witness :
    pymain { envA with apiKey := none } [] =
      .ok ⟨2, [], ["ERROR: OPENAI_API_KEY is not set in your environment."], [], false⟩ :=
  pymain_missing_key { envA with apiKey := none } [] {} rfl (Or.inl rfl)

/-- C6: if the resolved input text is empty after trimming, `main` prints
an error to stderr and returns exit code 2, with no remote client
constructed and no request issued. -/
theorem pymain_empty_input (env : Env) (argv : List String) (args : Args)
    (raw : String) (outLines : List String)
    (h1 : parse_args argv = .ok args)
    (h2 : truthyOpt env.apiKey = true)
    (h3 : read_input env args = .ok (raw, outLines))
    (h4 : (pyStrip raw).isEmpty = true) :
    pymain env argv = .ok ⟨2, outLines, ["ERROR: No input text provided."], [], false⟩ := by
  simp [pymain, h1, h2, h3, h4]

/-- Witness for `pymain_empty_input`: a literal text of three spaces. -/
theorem pymain_empty_input_witness :
    pymain envA ["--text", "   "] =
      .ok ⟨2, [], ["ERROR: No input text provided."], [], false⟩ :=
  pymain_empty_input envA ["--text", "   "] { text := some "   " } "   " []
    (by decide) rfl rfl (by decide)

/-- C4: if the remote summarization call raises any error with message m,
`main` prints `"ERROR: <m>"` to stderr and returns exit code 1; stdout
receives nothing in the summary step (it holds exactly the lines printed
during input resolution), so the summary is printed only after a fully
successful remote call. -/
theorem pymain_remote_error (env : Env) (argv : List String) (args : Args)
    (raw : String) (outLines : List String) (e : PyExc)
    (h1 : parse_args argv = .ok args)
    (h2 : truthyOpt env.apiKey = true)
    (h3 : read_input env args = .ok (raw, outLines))
    (h4 : (pyStrip raw).isEmpty = false)
    (h5 : (summarize env.create (pyStrip raw) args.model args.style args.max_words).1 =
      .error e) :
    pymain env argv = .ok ⟨1, outLines, ["ERROR: " ++ e.msg],
      [summarizeRequest (pyStrip raw) args.model args.style args.max_words], true⟩ := by
  simp [pymain, h1, h2, h3, h4, h5]
  rfl

/-- Witness for `pymain_remote_error`: an endpoint that always raises
`"rate limit"`. -/
theorem pymain_remote_error_witness :
    pymain { envA with create := fun _ => .error ⟨.excOther, "rate limit"⟩ } ["--text", "hello"] =
      .ok ⟨1, [], ["ERROR: rate limit"],
        [summarizeRequest "hello" "gpt-4.1-mini" "paragraph" 150], true⟩ :=
  pymain_remote_error { envA with create := fun _ => .error ⟨.excOther, "rate limit"⟩ }
    ["--text", "hello"] { text := some "hello" } "hello" [] ⟨.excOther, "rate limit"⟩
    (by decide) rfl rfl (by decide) rfl

/-- Invariant of the argparse loop: each mutually-exclusive-group flag is
set in the namespace exactly when its action has been seen, and at most
one of the three input sources is set. -/
def stInv (st : ParseState) : Prop :=
  st.args.text.isSome = st.seenText ∧
  st.args.file.isSome = st.seenFile ∧
  st.args.stdin = st.seenStdin ∧
  sourceCount st.args ≤ 1

theorem parseLoop_inv :
    ∀ (argv : List String) (st : ParseState), stInv st →
    ∀ st', parseLoop argv st = .ok st' → stInv st' := by
  intro argv st
  induction argv, st using parseLoop.induct with
  | case1 st =>
    intro hinv st' hok
    simp [parseLoop] at hok
    exact hok ▸ hinv
  | case2 st =>
    intro hinv st' hok
    simp [parseLoop] at hok
  | case3 st v rest2 h1 =>
    intro hinv st' hok
    simp [parseLoop, h1] at hok
  | case4 st v rest2 h1 h2 =>
    intro hinv st' hok
    simp only [Bool.not_eq_true] at h1
    simp [parseLoop, h1, h2] at hok
  | case5 st v rest2 h1 h2 ih =>
    intro hinv st' hok
    obtain ⟨i1, i2, i3, i4⟩ := hinv
    simp only [Bool.not_eq_true] at h1 h2
    simp [parseLoop, h1, h2] at hok
    refine ih ?_ st' (by simpa [h1, h2] using hok)
    refine ⟨?_, ?_, ?_, ?_⟩ <;>
      simp [stInv, sourceCount, i1, i2, i3, i4, h1, h2]
  | case6 st h1 =>
    intro hinv st' hok
    simp [parseLoop] at hok
  | case7 st v rest2 h1 h2 =>
    intro hinv st' hok
    simp [parseLoop, h1] at hok
  | case8 st v rest2 h1 h2 h3 =>
    intro hinv st' hok
    simp only [Bool.not_eq_true] at h1
    simp [parseLoop, h1, h2] at hok
  | case9 st v rest2 h1 h2 h3 ih =>
    intro hinv st' hok
    obtain ⟨i1, i2, i3, i4⟩ := hinv
    simp only [Bool.not_eq_true] at h1 h2
    simp [parseLoop, h1, h2] at hok
    refine ih ?_ st' (by simpa [h1, h2] using hok)
    refine ⟨?_, ?_, ?_, ?_⟩ <;>
      simp [stInv, sourceCount, i1, i2, i3, i4, h1, h2]
  | case10 rest st h1 h2 h3 =>
    intro hinv st' hok
    cases rest with
    | nil => simp [parseLoop, h1] at hok
    | cons v rest2 => simp [parseLoop, h1] at hok
  | case11 rest st h1 h2 h3 h4 =>
    intro hinv st' hok
    simp only [Bool.not_eq_true] at h1
    cases rest with
    | nil => simp [parseLoop, h1, h2] at hok
    | cons v rest2 => simp [parseLoop, h1, h2] at hok
  | case12 rest st h1 h2 h3 h4 ih =>
    intro hinv st' hok
    obtain ⟨i1, i2, i3, i4⟩ := hinv
    simp only [Bool.not_eq_true] at h1 h2
    have hstep : parseLoop ("--stdin" :: rest) st =
        parseLoop rest ⟨⟨st.args.text, st.args.file, true, st.args.model, st.args.style,
          st.args.max_words⟩, st.seenText, st.seenFile, true⟩ := by
      cases rest with
      | nil => simp [parseLoop, h1, h2]
      | cons v rest2 => simp [parseLoop, h1, h2]
    rw [hstep] at hok
    refine ih ?_ st' (by simpa [h1, h2] using hok)
    refine ⟨?_, ?_, ?_, ?_⟩ <;>
      simp [stInv, sourceCount, i1, i2, i3, i4, h1, h2]
  | case13 st h1 h2 h3 =>
    intro hinv st' hok
    simp [parseLoop] at hok
  | case14 st v rest2 h1 h2 h3 ih =>
    intro hinv st' hok
    obtain ⟨i1, i2, i3, i4⟩ := hinv
    simp only [sourceCount, i1, i2, i3] at i4
    simp [parseLoop] at hok
    refine ih ?_ st' (by simpa using hok)
    refine ⟨?_, ?_, ?_, ?_⟩ <;>
      simp [stInv, sourceCount, i1, i2, i3, i4]
  | case15 st h1 h2 h3 h4 =>
    intro hinv st' hok
    simp [parseLoop] at hok
  | case16 st v rest2 hv h1 h2 h3 h4 ih =>
    intro hinv st' hok
    obtain ⟨i1, i2, i3, i4⟩ := hinv
    rcases hv with h | h | h <;> subst h <;>
      simp [parseLoop] at hok <;>
      refine ih ?_ st' (by simpa using hok) <;>
      exact ⟨i1, i2, i3, by simpa [sourceCount] using i4⟩
  | case17 st v rest2 hv h1 h2 h3 h4 =>
    intro hinv st' hok
    simp [parseLoop, hv] at hok
  | case18 st h1 h2 h3 h4 h5 =>
    intro hinv st' hok
    simp [parseLoop] at hok
  | case19 st v rest2 hv h1 h2 h3 h4 h5 =>
    intro hinv st' hok
    simp [parseLoop, hv] at hok
  | case20 st v rest2 n hv h1 h2 h3 h4 h5 ih =>
    intro hinv st' hok
    obtain ⟨i1, i2, i3, i4⟩ := hinv
    simp only [sourceCount, i1, i2, i3] at i4
    simp [parseLoop, hv] at hok
    refine ih ?_ st' (by simpa [hv] using hok)
    refine ⟨?_, ?_, ?_, ?_⟩ <;>
      simp [stInv, sourceCount, i1, i2, i3, i4]
  | case21 tok rest st h1 h2 h3 h4 h5 h6 =>
    intro hinv st' hok
    cases rest with
    | nil => simp [parseLoop, h1, h2, h3, h4, h5, h6] at hok
    | cons v rest2 => simp [parseLoop, h1, h2, h3, h4, h5, h6] at hok

/-- C7: mutual exclusivity of the three explicit input sources is enforced
at the parsing layer: every invocation accepted by `parse_args` has at
most one of `--text`, `--file`, `--stdin` set, equivalently any invocation
setting more than one of them is rejected with a parse error (on which
argparse exits the process). -/
theorem parse_args_mutex (argv : List String) (args : Args)
    (h : parse_args argv = .ok args) : sourceCount args ≤ 1 := by
  unfold parse_args at h
  cases hp : parseLoop argv {} with
  | error e => rw [hp] at h; exact Except.noConfusion h
  | ok st1 =>
    rw [hp] at h
    simp only [Except.map] at h
    have hi := parseLoop_inv argv {} ⟨rfl, rfl, rfl, by decide⟩ st1 hp
    cases h
    exact hi.2.2.2

/-- Witness for `parse_args_mutex` at a concrete accepted invocation. -/
theorem parse_args_mutex_witness : sourceCount { text := some "a" } ≤ 1 :=
  parse_args_mutex ["--text", "a"] { text := some "a" } (by decide)

/-- C9 counterexample: argument parsing accepts `--max-words -5`, a
non-positive value, because `type=int` performs no positivity check. -/
theorem maxwords_negative_cex :
    parse_args ["--max-words", "-5"] = .ok { max_words := -5 } ∧ ¬(0 < (-5 : Int)) :=
  ⟨by decide, by decide⟩

/-- C9 (amended): `--max-words` is converted with Python `int()`; parsing
admits every integer value, positive or not, and with no `--max-words`
option the default is 150. -/
theorem maxwords_any_int (s : String) (n : Int) (h : pyInt s = some n) :
    parse_args ["--max-words", s] = .ok { max_words := n } ∧
    parse_args [] = .ok ({ } : Args) :=
  ⟨by simp [parse_args, parseLoop, Except.map, h], rfl⟩

/-- Witness for `maxwords_any_int` at the concrete string `"-5"`. -/
theorem maxwords_any_int_witness :
    parse_args ["--max-words", "-5"] = .ok { max_words := -5 } :=
  (maxwords_any_int "-5" (-5) (by decide)).1

/-- C8 counterexample: when the file bytes do not decode as UTF-8, the
failure raised is `UnicodeDecodeError` — a `ValueError`, not of `IOError`
kind (`IOError` is `OSError` in Python 3). -/
theorem read_input_decode_cex :
    read_input { envA with files := fun _ => .failDecode "invalid start byte" }
        { file := some "doc.txt" } =
      .error ⟨.unicodeDecodeError, "invalid start byte"⟩ ∧
    PyExcKind.isIOErrorKind .unicodeDecodeError = false :=
  ⟨rfl, rfl⟩

/-- C8 (amended): with a file path selected, `read_input` opens it as
UTF-8 text and returns its full contents; if the file cannot be opened the
failure raised is of `IOError` (`OSError`) kind, while if its bytes cannot
be decoded the failure raised is `UnicodeDecodeError`, which is not of
`IOError` kind. -/
theorem read_input_file_errors (env : Env) (args : Args) (p : String)
    (hT : truthyOpt args.text = false) (hF : args.file = some p) (hp : p.isEmpty = false) :
    (∀ m, env.files p = .failOpen m →
      read_input env args = .error ⟨.osError, m⟩ ∧
        PyExcKind.isIOErrorKind .osError = true) ∧
    (∀ m, env.files p = .failDecode m →
      read_input env args = .error ⟨.unicodeDecodeError, m⟩ ∧
        PyExcKind.isIOErrorKind .unicodeDecodeError = false) ∧
    (∀ s, env.files p = .content s → read_input env args = .ok (s, [])) := by
  have hf2 : truthyOpt (some p) = true := by simp [truthyOpt, hp]
  refine ⟨?_, ?_, ?_⟩ <;> intro m hm <;>
    simp [read_input, readFileUtf8, hT, hF, hf2, hm, PyExcKind.isIOErrorKind]

/-- Witness for `read_input_file_errors`: a missing file raises the
`IOError` kind, and a readable file's contents are returned in full. -/
theorem read_input_file_errors_witness :
    read_input { envA with files := fun _ => .failOpen "No such file or directory" }
        { file := some "missing.txt" } =
      .error ⟨.osError, "No such file or directory"⟩ ∧
    read_input envA { file := some "notes.txt" } = .ok ("file contents", []) :=
  ⟨((read_input_file_errors
      { envA with files := fun _ => .failOpen "No such file or directory" }
      { file := some "missing.txt" } "missing.txt" rfl rfl rfl).1
        "No such file or directory" rfl).1,
   (read_input_file_errors envA { file := some "notes.txt" } "notes.txt"
      rfl rfl rfl).2.2 "file contents" rfl⟩
